import Mathlib

/-!
Verification of the punytunes backend control plane against its specification.

The development shallowly embeds the relevant Rust source files:
  - src/src-tauri/src/amplifier_manager/hegel.rs (Hegel line codec and session loop)
  - src/src-tauri/src/amplifier_manager.rs (AmplifierManager run loop)
  - src/src-tauri/src/streammagic_manager.rs (StreamMagicManager run loop)
  - src/src-tauri/src/streammagic_manager/websocket_client.rs (WebSocketClient)
  - src/src-tauri/src/streammagic_manager/discovery.rs (streamer discovery)
  - src/src-tauri/src/utils.rs (host_from_url)

Machine integers (u8, u32, u128 millisecond counts) are modelled as Nat; all
values handled here stay far below any overflow boundary, and where a range
check exists in the source it is reproduced explicitly. Fallible Rust code
returns Except or Option. External effects (socket writes, persisted-store
writes, channel sends) are modelled as explicit effect lists returned by the
step functions; wall-clock readings are passed in as explicit Nat millisecond
timestamps.
-/

namespace PunyTunes

-- ================================================================================================
-- Hegel command handling (amplifier_manager/hegel.rs)
-- ================================================================================================

/-- Mirror of enum HegelCommand in hegel.rs. Option fields mirror the Rust
Option payloads (None is used for request/toggle command construction). -/
inductive HegelCommand where
  | error (value : String)
  | mute (value : Option Bool)
  | power (value : Option Bool)
  | source (value : Option Nat)
  | volume (value : Option Nat)
deriving Repr, DecidableEq

/-- Mirror of HegelCommand::code. -/
def HegelCommand.code : HegelCommand → Char
  | .error _ => 'e'
  | .mute _ => 'm'
  | .power _ => 'p'
  | .source _ => 'i'
  | .volume _ => 'v'

/-- Mirror of HegelCommand::request, producing for example "-p.?". -/
def HegelCommand.request (c : HegelCommand) : String :=
  "-" ++ c.code.toString ++ ".?"

/-- Mirror of HegelCommand::toggle (empty string for non-toggleable commands). -/
def HegelCommand.toggle (c : HegelCommand) : String :=
  match c with
  | .mute _ | .power _ => "-" ++ c.code.toString ++ ".t"
  | _ => ""

/-- Numeric value of a list of ASCII digit characters. -/
def digitsToNat (cs : List Char) : Nat :=
  cs.foldl (fun acc c => acc * 10 + (c.toNat - 48)) 0

/-- Model of str::parse::<u8> as used by the frame decoder: an optional leading
plus sign, then one or more ASCII digits, value at most 255; anything else
(including a minus sign) fails. -/
def parseU8 (s : String) : Option Nat :=
  let cs := s.toList
  let digits : Option (List Char) :=
    match cs with
    | '+' :: rest => if rest.isEmpty then none else some rest
    | _ => if cs.isEmpty then none else some cs
  match digits with
  | none => none
  | some ds =>
    if ds.all Char.isDigit then
      if digitsToNat ds ≤ 255 then some (digitsToNat ds) else none
    else none

/-- Model of matching the anchored pattern used by TryFrom<Frame> for
HegelCommand, which is a dash, one command-code character among e i m p v, a
dot, then the captured value; the dot-star capture cannot cross a newline. -/
def hegelFrameMatch (s : String) : Option (Char × String) :=
  match s.toList with
  | '-' :: command_code :: '.' :: rest =>
    if (command_code = 'e' || command_code = 'i' || command_code = 'm' ||
        command_code = 'p' || command_code = 'v') && rest.all (fun c => c ≠ '\n') then
      some (command_code, String.mk rest)
    else none
  | _ => none

/-- Mirror of impl TryFrom<Frame> for HegelCommand (hegel.rs lines 92-148),
taking the frame data (the line without its CR terminator). -/
def hegelCommandTryFrom (frame_data : String) : Except String HegelCommand :=
  match hegelFrameMatch frame_data with
  | some (command_code, command_value) =>
    if command_code = 'e' then
      Except.ok (HegelCommand.error command_value)
    else if command_code = 'i' then
      match parseU8 command_value with
      | some source_id =>
        if 1 ≤ source_id && source_id ≤ 13 then
          Except.ok (HegelCommand.source (some source_id))
        else
          Except.error ("Source value out of range (valid is 1-13): " ++ toString source_id)
      | none => Except.error ("Invalid source value: " ++ command_value)
    else if command_code = 'm' then
      if command_value = "0" then Except.ok (HegelCommand.mute (some false))
      else if command_value = "1" then Except.ok (HegelCommand.mute (some true))
      else Except.error ("Invalid mute value: " ++ command_value)
    else if command_code = 'p' then
      if command_value = "0" then Except.ok (HegelCommand.power (some false))
      else if command_value = "1" then Except.ok (HegelCommand.power (some true))
      else Except.error ("Invalid power value: " ++ command_value)
    else if command_code = 'v' then
      match parseU8 command_value with
      | some volume =>
        if volume ≤ 100 then Except.ok (HegelCommand.volume (some volume))
        else Except.error ("Volume value out of range (valid is 0-100): " ++ toString volume)
      | none => Except.error ("Invalid volume value: " ++ command_value)
    else
      Except.error ("Unexpected command code: " ++ command_code.toString)
  | none => Except.error ("Invalid Frame data: " ++ frame_data)

/-- Mirror of impl From<String> for Frame, which appends the CR terminator. -/
def frameFromString (s : String) : String := s ++ "\r"

/-- Mirror of impl TryFrom<HegelCommand> for Frame (hegel.rs lines 223-263).
Returns the full wire text of the frame, CR included. -/
def frameTryFromHegelCommand (command : HegelCommand) : Except String String :=
  match command with
  | .error value => Except.ok (frameFromString ("-" ++ command.code.toString ++ "." ++ value))
  | .mute value =>
    match value with
    | some true => Except.ok (frameFromString ("-" ++ command.code.toString ++ ".1"))
    | some false => Except.ok (frameFromString ("-" ++ command.code.toString ++ ".0"))
    | none => Except.error "Mute value must be a bool"
  | .power value =>
    match value with
    | some true => Except.ok (frameFromString ("-" ++ command.code.toString ++ ".1"))
    | some false => Except.ok (frameFromString ("-" ++ command.code.toString ++ ".0"))
    | none => Except.error "Power value must be a bool"
  | .source value =>
    match value with
    | some source_id =>
      if 1 ≤ source_id && source_id ≤ 13 then
        Except.ok (frameFromString ("-" ++ command.code.toString ++ "." ++ toString source_id))
      else Except.error "Source id must be between 1 and 13"
    | none => Except.error "Source id must be a u8 between 1 and 13"
  | .volume value =>
    match value with
    | some level =>
      if level ≤ 100 then
        Except.ok (frameFromString ("-" ++ command.code.toString ++ "." ++ toString level))
      else Except.error "Volume level must be between 0 and 100"
    | none => Except.error "Volume level must be a u8 between 0 and 100"

/-- Mirror of get_line in hegel.rs: split the buffer at the first CR, returning
the line before it and the remaining bytes after it. -/
def get_line (cs : List Char) : Option (List Char × List Char) :=
  match cs with
  | [] => none
  | c :: rest =>
    if c = '\r' then some ([], rest)
    else
      match get_line rest with
      | some (line, remainder) => some (c :: line, remainder)
      | none => none

/-- Encode a command to its wire frame, read the frame back off the wire via
get_line, and decode it: the round trip the codec claims. -/
def wireRoundTrip (command : HegelCommand) : Except String HegelCommand :=
  match frameTryFromHegelCommand command with
  | Except.error e => Except.error e
  | Except.ok wire =>
    match get_line wire.toList with
    | some (line, _) => hegelCommandTryFrom (String.mk line)
    | none => Except.error "Hegel frame incomplete"

instance {ε α : Type} [DecidableEq ε] [DecidableEq α] : DecidableEq (Except ε α) := fun x y =>
  match x, y with
  | .ok a, .ok b =>
    match decEq a b with
    | isTrue h => isTrue (by rw [h])
    | isFalse h => isFalse (fun hh => by cases hh; exact h rfl)
  | .ok _, .error _ => isFalse (fun h => Except.noConfusion h)
  | .error _, .ok _ => isFalse (fun h => Except.noConfusion h)
  | .error e, .error f =>
    match decEq e f with
    | isTrue h => isTrue (by rw [h])
    | isFalse h => isFalse (fun hh => by cases hh; exact h rfl)

/-- A decode result is an error. -/
def isErr {ε α : Type} : Except ε α → Bool
  | .error _ => true
  | .ok _ => false

/-- C3: for every valid amplifier command value of each command kind (mute 0/1,
power 0/1, source 1..=13, volume 0..=100), decoding the encoded wire frame
yields the value back, and each string in the stated invalid set is rejected
by the frame decoder with an error. -/
theorem hegel_codec_round_trip_and_invalid :
    (∀ b : Bool, wireRoundTrip (HegelCommand.mute (some b)) = .ok (.mute (some b))) ∧
    (∀ b : Bool, wireRoundTrip (HegelCommand.power (some b)) = .ok (.power (some b))) ∧
    (∀ i : Fin 13, wireRoundTrip (HegelCommand.source (some (i.val + 1))) =
      .ok (.source (some (i.val + 1)))) ∧
    (∀ v : Fin 101, wireRoundTrip (HegelCommand.volume (some v.val)) =
      .ok (.volume (some v.val))) ∧
    (["", "v", "10", "v.10", "-v10", "-v.10.90", "-f.10", "-p.-1", "-p.2", "-p.i",
      "-i.0", "-i.14", "-v.-1", "-v.101", "-m.2"].all
        (fun s => isErr (hegelCommandTryFrom s)) = true) := by
  refine ⟨by decide, by decide, by decide, by decide, by decide⟩

-- ================================================================================================
-- host_from_url (utils.rs)
-- ================================================================================================

/-- Abstract result of a successful url::Url::parse call: the parsed URL
carries an optional host component, as reported by Url::host_str. The URL
parser itself is an external library, so the embedding takes its outcome as
the input of host_from_url. -/
structure UrlInfo where
  host_str : Option String
deriving Repr, DecidableEq

/-- Outcome of running a Rust function that may panic. -/
inductive RustOutcome (α : Type) where
  | ok (value : α)
  | panicked (msg : String)
deriving Repr, DecidableEq

/-- Mirror of host_from_url in utils.rs: on a successful parse it returns
Some(url_info.host_str().unwrap().to_owned()), where the unwrap panics when
the parsed URL has no host component; on a failed parse it returns None. -/
def host_from_url (parse_result : Option UrlInfo) : RustOutcome (Option String) :=
  match parse_result with
  | some url_info =>
    match url_info.host_str with
    | some host => RustOutcome.ok (some host)
    | none => RustOutcome.panicked "called Option::unwrap on a None value"
  | none => RustOutcome.ok none

/-- C10: host_from_url is not total as claimed: when the input parses as a URL
without a host component (for example a mailto: URL) the unwrap in utils.rs
line 5 panics instead of returning None; the parse-failure and host-present
paths behave as described. -/
theorem host_from_url_panics_on_hostless_url :
    host_from_url (some { host_str := none }) =
      RustOutcome.panicked "called Option::unwrap on a None value" ∧
    host_from_url none = RustOutcome.ok none ∧
    (∀ host : String, host_from_url (some { host_str := some host }) =
      RustOutcome.ok (some host)) :=
  ⟨rfl, rfl, fun _ => rfl⟩

-- ================================================================================================
-- HegelAmplifierHandler run loop: inbound command handling (hegel.rs lines 462-551)
-- ================================================================================================

/-- Mirror of struct AmplifierState (amplifier_handler.rs). -/
structure AmplifierState where
  is_muted : Option Bool
  is_powered_on : Option Bool
  source : Option Nat
  volume : Option Nat
deriving Repr, DecidableEq

/-- Mirror of the Default impl for AmplifierState: all fields start at None. -/
def AmplifierState.default : AmplifierState :=
  { is_muted := none, is_powered_on := none, source := none, volume := none }

/-- The mutable pieces of the HegelAmplifierHandler run loop that inbound
frames touch: the tracked amplifier state, the pending connection-test
timestamp, and the last heartbeat timestamp, in milliseconds. -/
structure HegelLoopState where
  amplifier_state : AmplifierState
  connection_test_start_time : Option Nat
  last_amplifier_heartbeat : Nat
deriving Repr, DecidableEq

/-- Mirror of the inbound-command dispatch of the HegelAmplifierHandler run
loop (hegel.rs lines 470-519). Returns the new loop state and whether an
AmplifierState message was emitted to the manager. In the Power branch the
source clears connection_test_start_time inside an if-let when it is Some;
the net result is None in either case, written here unconditionally. -/
def handleHegelCommand (st : HegelLoopState) (cmd : HegelCommand) (now : Nat) :
    HegelLoopState × Bool :=
  match cmd with
  | .error _ => (st, false)
  | .mute is_muted =>
    ({ st with amplifier_state := { st.amplifier_state with is_muted := is_muted } }, true)
  | .power amp_is_powered_on =>
    let st1 : HegelLoopState :=
      { st with connection_test_start_time := none, last_amplifier_heartbeat := now }
    match st1.amplifier_state.is_powered_on with
    | some handler_power =>
      match amp_is_powered_on with
      | some amplifier_power =>
        if handler_power ≠ amplifier_power then
          ({ st1 with
              amplifier_state := { st1.amplifier_state with is_powered_on := amp_is_powered_on } },
            true)
        else (st1, false)
      | none => (st1, false)
    | none =>
      ({ st1 with
          amplifier_state := { st1.amplifier_state with is_powered_on := amp_is_powered_on } },
        true)
  | .source source_id =>
    ({ st with amplifier_state := { st.amplifier_state with source := source_id } }, true)
  | .volume level =>
    ({ st with amplifier_state := { st.amplifier_state with volume := level } }, true)

/-- C7: every inbound Power command refreshes the heartbeat timestamp and
clears any pending connection-test timestamp, while an AmplifierState
emission happens exactly when the known power value was None or the received
value differs from the known one. -/
theorem power_is_heartbeat_with_conditional_emit :
    ∀ (st : HegelLoopState) (amp_is_powered_on : Option Bool) (now : Nat),
      (handleHegelCommand st (.power amp_is_powered_on) now).1.connection_test_start_time
          = none ∧
      (handleHegelCommand st (.power amp_is_powered_on) now).1.last_amplifier_heartbeat
          = now ∧
      ((handleHegelCommand st (.power amp_is_powered_on) now).2 = true ↔
        st.amplifier_state.is_powered_on = none ∨
        (∃ p q, st.amplifier_state.is_powered_on = some p ∧ amp_is_powered_on = some q ∧
          p ≠ q)) := by
  intro st amp now
  rcases st with ⟨⟨m, p, s, v⟩, t, hb⟩
  rcases p with _ | p <;> rcases amp with _ | q
  · simp [handleHegelCommand]
  · simp [handleHegelCommand]
  · simp [handleHegelCommand]
  · cases p <;> cases q <;> simp [handleHegelCommand]

-- ================================================================================================
-- StreamMagicManager (streammagic_manager.rs, streammagic_manager/discovery.rs, payloads.rs)
-- ================================================================================================

/-- Mirror of struct StreamMagicDevice (streammagic_manager/discovery.rs lines 20-29). -/
structure StreamMagicDevice where
  friendly_name : String
  model : String
  model_number : Option String
  serial_number : Option String
  url : String
  udn : String
  is_activating : Bool
  is_active : Bool
deriving Repr, DecidableEq

/-- Mirror of enum WebSocketClientStatus (websocket_client.rs lines 72-78) with
the details structs inlined as constructor fields. -/
inductive WebSocketClientStatus where
  | disconnected (reason : Option String) (consider_reconnecting : Bool)
  | connecting (url : String)
  | connected (url : String) (existing : Bool)
  | testingConnection
deriving Repr, DecidableEq

/-- The ten streamer payload slots of StreamMagicManager (streammagic_manager.rs
lines 166-176), grouped into one record. Payload schemas are out of scope, so a
slot holds an opaque payload token. -/
structure StreamerPayloadCache where
  presets : Option Nat
  queue_info : Option Nat
  queue_list : Option Nat
  system_info : Option Nat
  system_power : Option Nat
  system_sources : Option Nat
  zone_now_playing : Option Nat
  zone_play_state : Option Nat
  zone_position : Option Nat
  zone_state : Option Nat
deriving Repr, DecidableEq

/-- All payload slots start at None (StreamMagicManager::new, lines 206-215). -/
def StreamerPayloadCache.empty : StreamerPayloadCache :=
  { presets := none, queue_info := none, queue_list := none, system_info := none,
    system_power := none, system_sources := none, zone_now_playing := none,
    zone_play_state := none, zone_position := none, zone_state := none }

/-- Mirror of QueueInfo::request_updates_msg (payloads.rs line 261). -/
def QueueInfo.request_updates_msg : String :=
  "\x7b\"path\": \"/queue/info\", \"params\": \x7b\"update\": 1\x7d\x7d"

/-- Mirror of Presets::request_updates_msg (payloads.rs line 296). -/
def Presets.request_updates_msg : String :=
  "\x7b\"path\": \"/presets/list\", \"params\": \x7b\"update\": 1\x7d\x7d"

/-- Mirror of SystemInfo::request_updates_msg (payloads.rs line 333). -/
def SystemInfo.request_updates_msg : String :=
  "\x7b\"path\": \"/system/info\", \"params\": \x7b\"update\": 1\x7d\x7d"

/-- Mirror of SystemPower::request_updates_msg (payloads.rs line 365). -/
def SystemPower.request_updates_msg : String :=
  "\x7b\"path\": \"/system/power\", \"params\": \x7b\"update\": 1\x7d\x7d"

/-- Mirror of SystemSources::request_updates_msg (payloads.rs line 397). -/
def SystemSources.request_updates_msg : String :=
  "\x7b\"path\": \"/system/sources\", \"params\": \x7b\"update\": 1\x7d\x7d"

/-- Mirror of ZoneNowPlaying::request_updates_msg (payloads.rs line 473). -/
def ZoneNowPlaying.request_updates_msg : String :=
  "\x7b\"path\": \"/zone/now_playing\", \"params\": \x7b\"update\": 1\x7d\x7d"

/-- Mirror of ZonePlayState::request_updates_msg (payloads.rs line 544). -/
def ZonePlayState.request_updates_msg : String :=
  "\x7b\"path\": \"/zone/play_state\", \"params\": \x7b\"update\": 1\x7d\x7d"

/-- Mirror of ZonePosition::request_updates_msg (payloads.rs line 565). -/
def ZonePosition.request_updates_msg : String :=
  "\x7b\"path\": \"/zone/play_state/position\", \"params\": \x7b\"update\": 1\x7d\x7d"

/-- Mirror of ZoneState::request_updates_msg (payloads.rs line 626). -/
def ZoneState.request_updates_msg : String :=
  "\x7b\"path\": \"/zone/state\", \"params\": \x7b\"update\": 1\x7d\x7d"

/-- Mirror of QueueList::request_state_msg (payloads.rs line 237). -/
def QueueList.request_state_msg : String :=
  "\x7b\"path\": \"/queue/list\"\x7d"

/-- The nine update-subscription messages, in the order sent by
register_for_streammagic_updates (streammagic_manager.rs lines 683-694). -/
def register_for_streammagic_updates_msgs : List String :=
  [Presets.request_updates_msg, QueueInfo.request_updates_msg, SystemInfo.request_updates_msg,
   SystemPower.request_updates_msg, SystemSources.request_updates_msg,
   ZoneNowPlaying.request_updates_msg, ZonePlayState.request_updates_msg,
   ZonePosition.request_updates_msg, ZoneState.request_updates_msg]

/-- Externally visible effects performed by the StreamMagicManager while
handling one inbox event. Logging and UI event-bus emissions are out of
scope and not recorded. -/
inductive SMEffect where
  | wsSend (msg : String)
  | persistHost (host : String)
  | deletePersistedHost
  | startWebSocketClient (url : String)
  | stopWebSocketClientTask
  | sendClientTestConnection
  | sleepMs (ms : Nat)
  | spawnDiscovery (activate : Bool)
deriving Repr, DecidableEq

/-- State of the StreamMagicManager actor (streammagic_manager.rs lines
132-177) restricted to the fields the run loop mutates. Channel and join
handles are collapsed into has_ws_client, the payload slots into cache;
activation_timeout is the constant 15000 and appears inline. The log buffer
and app handle are out of scope. -/
structure SMState where
  devices : List StreamMagicDevice
  last_active_device : Option StreamMagicDevice
  is_activating : Bool
  is_discovering : Bool
  is_testing_connection : Bool
  count_of_disconnects_while_testing : Nat
  activation_start : Option Nat
  activation_attempts : Nat
  ui_ready : Bool
  has_ws_client : Bool
  ws_client_status : WebSocketClientStatus
  cache : StreamerPayloadCache
deriving Repr, DecidableEq

/-- Mirror of StreamMagicManager::new (lines 185-217). -/
def SMState.initial : SMState :=
  { devices := [], last_active_device := none, is_activating := false, is_discovering := false,
    is_testing_connection := false, count_of_disconnects_while_testing := 0,
    activation_start := none, activation_attempts := 0, ui_ready := false,
    has_ws_client := false, ws_client_status := .disconnected none false,
    cache := StreamerPayloadCache.empty }

/-- Mirror of set_all_device_activation_false (lines 442-449). -/
def SMState.set_all_device_activation_false (st : SMState) : SMState :=
  { st with devices := st.devices.map (fun d => { d with is_active := false, is_activating := false }) }

/-- Mirror of the first-match-wins marking loop inside
set_device_is_active_from_url (lines 459-470): mark the first device whose
host equals the given host as active and return it, leaving later devices
untouched (the source breaks out of the loop). -/
def markFirstDeviceActive (hostOf : String → Option String) (given_host : String) :
    List StreamMagicDevice → List StreamMagicDevice × Option StreamMagicDevice
  | [] => ([], none)
  | device :: rest =>
    match hostOf device.url with
    | some device_host =>
      if device_host = given_host then
        ({ device with is_active := true } :: rest, some { device with is_active := true })
      else
        let next := markFirstDeviceActive hostOf given_host rest
        (device :: next.1, next.2)
    | none =>
      let next := markFirstDeviceActive hostOf given_host rest
      (device :: next.1, next.2)

/-- Mirror of set_device_is_active_from_url (lines 451-478). The URL host
extraction is abstracted as hostOf, a non-panicking run of host_from_url. -/
def SMState.set_device_is_active_from_url (st : SMState) (hostOf : String → Option String)
    (url : String) : SMState :=
  let st1 := st.set_all_device_activation_false
  match hostOf url with
  | some given_host =>
    let next := markFirstDeviceActive hostOf given_host st1.devices
    { st1 with
        devices := next.1,
        last_active_device :=
          match next.2 with
          | some device => some device
          | none => st1.last_active_device }
  | none => st1

/-- Mirror of add_device (lines 300-311): unconditionally push the device,
then reconcile active flags against the connected URL when connected. -/
def SMState.add_device (st : SMState) (hostOf : String → Option String)
    (device : StreamMagicDevice) : SMState :=
  let st1 := { st with devices := st.devices ++ [device] }
  match st1.ws_client_status with
  | .connected url _ => st1.set_device_is_active_from_url hostOf url
  | _ => st1

/-- Mirror of set_is_activating (lines 319-333); now is the current time in
milliseconds, used when a fresh activation records its start. -/
def SMState.set_is_activating (st : SMState) (is_activating : Bool) (now : Nat) : SMState :=
  if is_activating then
    if ¬ st.is_activating then
      { st with activation_start := some now, activation_attempts := 0, is_activating := true }
    else st
  else
    { st with activation_start := none, activation_attempts := 0, is_activating := false }

/-- Mirror of reset_websocket_related_state (lines 313-317). -/
def SMState.reset_websocket_related_state (st : SMState) (now : Nat) : SMState :=
  let st1 := { st with ws_client_status := WebSocketClientStatus.disconnected none false }
  let st2 := { st1 with is_testing_connection := false }
  st2.set_is_activating false now

/-- Mirror of stop_websocket_client (lines 649-670): only acts when a client
task exists; shutting down and joining it are recorded as one effect. -/
def SMState.stop_websocket_client (st : SMState) : SMState × List SMEffect :=
  if st.has_ws_client then
    ({ st with has_ws_client := false }, [SMEffect.stopWebSocketClientTask])
  else (st, [])

/-- Mirror of start_websocket_client (lines 557-591): stop any existing
client, then spawn a new one against ws://{host}:80/smoip. -/
def SMState.start_websocket_client (st : SMState) (host : String) : SMState × List SMEffect :=
  let stopped := st.stop_websocket_client
  let streamer_url := "ws://" ++ host ++ ":80/smoip"
  ({ stopped.1 with has_ws_client := true },
    stopped.2 ++ [SMEffect.startWebSocketClient streamer_url])

/-- Mirror of the exponential backoff computation in activate_device (lines
503-510): attempt 0 sleeps zero, afterwards min(1500, 100 * 2 ^ attempts)
milliseconds. The u32 power cannot overflow in reachable states because the
15 second budget bounds the attempt counter. -/
def activationDelayMs (activation_attempts : Nat) : Nat :=
  match activation_attempts with
  | 0 => 0
  | _ => min 1500 (100 * 2 ^ activation_attempts)

/-- Mirror of the first-match is_activating marking in activate_device (lines
524-531, via iter_mut().find). -/
def markDeviceActivating (udn : String) : List StreamMagicDevice → List StreamMagicDevice
  | [] => []
  | device :: rest =>
    if device.udn = udn then { device with is_activating := true } :: rest
    else device :: markDeviceActivating udn rest

/-- Mirror of activate_device (lines 480-541). The wall clock is passed in as
now (milliseconds); duration_since returning Err (clock skew) corresponds to
truncated Nat subtraction, which skips the abort as the source does. -/
def SMState.activate_device (st : SMState) (hostOf : String → Option String)
    (udn : String) (now : Nat) : SMState × List SMEffect :=
  let st1 := st.set_is_activating true now
  let timed_out : Bool :=
    match st1.activation_start with
    | some activation_start => 15000 < now - activation_start
    | none => false
  if timed_out then
    (st1.set_is_activating false now, [])
  else
    let delay := activationDelayMs st1.activation_attempts
    let st2 := { st1 with activation_attempts := st1.activation_attempts + 1 }
    let st3 := st2.set_all_device_activation_false
    match st3.devices.find? (fun device => device.udn = udn) with
    | some device =>
      match hostOf device.url with
      | some device_host =>
        let st4 := { st3 with devices := markDeviceActivating udn st3.devices }
        let started := st4.start_websocket_client device_host
        (started.1, SMEffect.sleepMs delay :: started.2)
      | none =>
        (st3.set_is_activating false now, [SMEffect.sleepMs delay])
    | none => (st3, [SMEffect.sleepMs delay])

/-- Mirror of send_test_connection_request_to_websocket_client (lines
619-647), with the channel-send success path taken when a client exists. -/
def SMState.send_test_connection_request (st : SMState) : SMState × List SMEffect :=
  let st1 := { st with is_testing_connection := true, count_of_disconnects_while_testing := 0 }
  if st1.has_ws_client then (st1, [SMEffect.sendClientTestConnection])
  else ({ st1 with is_testing_connection := false }, [])

/-- Outcome of deserializing one incoming WebSocket text message: either the
StreamMagicMessage envelope fails to parse, or it parses to a path plus the
outcome of the per-path payload deserialization (some token on success, none
on failure). Deserialization itself is external serde code, so the embedding
takes its outcome as input. -/
inductive StreamMagicParsed where
  | malformed
  | msg (path : String) (decoded : Option Nat)
deriving Repr, DecidableEq

/-- Mirror of process_streammagic_message (lines 696-794): on a successful
decode the matching slot is overwritten; on a failed decode (or a failed
envelope parse, or an unhandled path) nothing changes apart from logging; a
successful queue-info decode additionally requests the full queue list. -/
def SMState.process_streammagic_message (st : SMState) (parsed : StreamMagicParsed) :
    SMState × List SMEffect :=
  match parsed with
  | .malformed => (st, [])
  | .msg path decoded =>
    if path = "/queue/info" then
      match decoded with
      | some payload =>
        ({ st with cache := { st.cache with queue_info := some payload } },
          [SMEffect.wsSend QueueList.request_state_msg])
      | none => (st, [])
    else if path = "/queue/list" then
      match decoded with
      | some payload => ({ st with cache := { st.cache with queue_list := some payload } }, [])
      | none => (st, [])
    else if path = "/presets/list" then
      match decoded with
      | some payload => ({ st with cache := { st.cache with presets := some payload } }, [])
      | none => (st, [])
    else if path = "/system/info" then
      match decoded with
      | some payload => ({ st with cache := { st.cache with system_info := some payload } }, [])
      | none => (st, [])
    else if path = "/system/power" then
      match decoded with
      | some payload => ({ st with cache := { st.cache with system_power := some payload } }, [])
      | none => (st, [])
    else if path = "/system/sources" then
      match decoded with
      | some payload => ({ st with cache := { st.cache with system_sources := some payload } }, [])
      | none => (st, [])
    else if path = "/zone/now_playing" then
      match decoded with
      | some payload =>
        ({ st with cache := { st.cache with zone_now_playing := some payload } }, [])
      | none => (st, [])
    else if path = "/zone/play_state" then
      match decoded with
      | some payload =>
        ({ st with cache := { st.cache with zone_play_state := some payload } }, [])
      | none => (st, [])
    else if path = "/zone/play_state/position" then
      match decoded with
      | some payload => ({ st with cache := { st.cache with zone_position := some payload } }, [])
      | none => (st, [])
    else if path = "/zone/state" then
      match decoded with
      | some payload => ({ st with cache := { st.cache with zone_state := some payload } }, [])
      | none => (st, [])
    else (st, [])

/-- Mirror of the WebSocketClientStatusMsg branch of the run loop (lines
1074-1183): the Connected and Disconnected handling, then the status write. -/
def SMState.handle_ws_status (st : SMState) (hostOf : String → Option String)
    (status : WebSocketClientStatus) (now : Nat) : SMState × List SMEffect :=
  match status with
  | .connected url existing =>
    let st1 := if st.is_testing_connection then { st with is_testing_connection := false } else st
    let next :=
      if ¬ existing then
        let persist_effects : List SMEffect :=
          match hostOf url with
          | some host => [SMEffect.persistHost host]
          | none => []
        let effects := persist_effects ++
          register_for_streammagic_updates_msgs.map SMEffect.wsSend ++
          [SMEffect.wsSend QueueList.request_state_msg]
        (st1.set_device_is_active_from_url hostOf url, effects)
      else (st1, [])
    let st2 := next.1.set_is_activating false now
    ({ st2 with ws_client_status := status }, next.2)
  | .disconnected _ consider_reconnecting =>
    let st1 := st.set_all_device_activation_false
    let st2 := { st1 with has_ws_client := false }
    if st2.is_testing_connection then
      let st3 := { st2 with is_testing_connection := false }
      match st3.last_active_device with
      | some last_active_device =>
        let next := st3.activate_device hostOf last_active_device.udn now
        ({ next.1 with ws_client_status := status }, next.2)
      | none => ({ st3 with ws_client_status := status }, [])
    else if consider_reconnecting then
      match st2.last_active_device with
      | some last_active_device =>
        let next := st2.activate_device hostOf last_active_device.udn now
        ({ next.1 with ws_client_status := status }, next.2)
      | none =>
        let st3 := st2.set_is_activating false now
        ({ st3 with ws_client_status := status }, [])
    else
      let st3 := st2.set_is_activating false now
      ({ st3 with ws_client_status := status }, [])
  | _ => ({ st with ws_client_status := status }, [])

/-- Fields of a streamer discovery result: discover_streamers constructs
devices with is_activating = false and is_active = false before sending them
to the manager inbox (discovery.rs lines 64-73). -/
structure DiscoveredStreamerFields where
  friendly_name : String
  model : String
  model_number : Option String
  serial_number : Option String
  url : String
  udn : String
deriving Repr, DecidableEq

/-- Build the StreamMagicDevice a discovery result delivers to the inbox. -/
def DiscoveredStreamerFields.toDevice (f : DiscoveredStreamerFields) : StreamMagicDevice :=
  { friendly_name := f.friendly_name, model := f.model, model_number := f.model_number,
    serial_number := f.serial_number, url := f.url, udn := f.udn,
    is_activating := false, is_active := false }

/-- One StreamMagicManager inbox event, covering the StreamMagicManagerAction
variants the run loop handles plus the two WebSocketClient outbox message
kinds (data and status), with wall-clock readings as explicit inputs. The
StreamerActionMsg variants only forward wire messages and are summarized by
the data-free streamerAction event. -/
inductive SMEvent where
  | activateUdn (udn : String) (now : Nat)
  | connectToStreamer (host : String)
  | deactivate
  | disconnectFromStreamer
  | discover (activate : Bool)
  | emitAppLog
  | handleClientError (now : Nat)
  | onUIReady
  | processDiscoveredDevice (fields : DiscoveredStreamerFields)
  | setIsDiscovering (is_discovering : Bool)
  | shutDown
  | stopWebSocketClientAction (remove_from_persisted_state : Bool)
  | testConnection (now : Nat)
  | streamerAction
  | wsData (parsed : StreamMagicParsed)
  | wsStatus (status : WebSocketClientStatus) (now : Nat)
deriving Repr, DecidableEq

/-- Mirror of one iteration of the StreamMagicManager run loop select (lines
838-1192), dispatching a single inbox event against the manager state. -/
def smStep (hostOf : String → Option String) (st : SMState) (event : SMEvent) :
    SMState × List SMEffect :=
  match event with
  | .activateUdn udn now => st.activate_device hostOf udn now
  | .connectToStreamer host => st.start_websocket_client host
  | .deactivate =>
    let st1 := st.set_all_device_activation_false
    st1.stop_websocket_client
  | .disconnectFromStreamer => st.stop_websocket_client
  | .discover activate =>
    let st1 := { st with is_discovering := true }
    let st2 := { st1 with devices := [] }
    (st2, [SMEffect.spawnDiscovery activate])
  | .emitAppLog => (st, [])
  | .handleClientError now =>
    let st1 :=
      if st.is_testing_connection then { st with is_testing_connection := false } else st
    match st1.last_active_device with
    | some last_device => st1.activate_device hostOf last_device.udn now
    | none => (st1, [])
  | .onUIReady => ({ st with ui_ready := true }, [])
  | .processDiscoveredDevice fields => (st.add_device hostOf fields.toDevice, [])
  | .setIsDiscovering is_discovering => ({ st with is_discovering := is_discovering }, [])
  | .shutDown => st.stop_websocket_client
  | .stopWebSocketClientAction remove_from_persisted_state =>
    let next := st.stop_websocket_client
    let st1 := next.1.reset_websocket_related_state 0
    (st1, next.2 ++ if remove_from_persisted_state then [SMEffect.deletePersistedHost] else [])
  | .testConnection now =>
    match st.ws_client_status with
    | .connected _ _ => st.send_test_connection_request
    | _ =>
      match st.last_active_device with
      | some last_device => st.activate_device hostOf last_device.udn now
      | none => (st, [])
  | .streamerAction => (st, [])
  | .wsData parsed => st.process_streammagic_message parsed
  | .wsStatus status now => st.handle_ws_status hostOf status now

/-- Fold a sequence of inbox events from the freshly constructed manager. -/
def smRun (hostOf : String → Option String) (events : List SMEvent) : SMState :=
  events.foldl (fun st event => (smStep hostOf st event).1) SMState.initial

/-- Number of devices currently flagged active. -/
def activeCount (devices : List StreamMagicDevice) : Nat :=
  devices.countP (fun d => d.is_active)

-- ------------------------------------------------------------------------------------------------
-- Lemmas about the device-activation flags

lemma activeCount_clear (devices : List StreamMagicDevice) :
    activeCount (devices.map (fun d => { d with is_active := false, is_activating := false })) = 0 := by
  induction devices with
  | nil => rfl
  | cons d rest ih => simpa [activeCount, List.countP_cons] using ih

lemma activeCount_set_all_false (st : SMState) :
    activeCount (st.set_all_device_activation_false).devices = 0 :=
  activeCount_clear st.devices

lemma countP_markFirstDeviceActive (hostOf : String → Option String) (given_host : String) :
    ∀ devices : List StreamMagicDevice,
      List.countP (fun d => d.is_active) devices = 0 →
      List.countP (fun d => d.is_active) (markFirstDeviceActive hostOf given_host devices).1 ≤ 1 := by
  intro devices
  induction devices with
  | nil => intro _; simp [markFirstDeviceActive]
  | cons d rest ih =>
    intro h
    rw [List.countP_cons] at h
    have hrest : List.countP (fun d => d.is_active) rest = 0 := by omega
    have hd : d.is_active = false := by
      cases hb : d.is_active
      · rfl
      · rw [hb] at h; simp at h
    cases hurl : hostOf d.url with
    | some device_host =>
      by_cases heq : device_host = given_host
      · simp [markFirstDeviceActive, hurl, heq, List.countP_cons, hrest]
      · have hih := ih hrest
        simp [markFirstDeviceActive, hurl, heq, List.countP_cons, hd]
        omega
    | none =>
      have hih := ih hrest
      simp [markFirstDeviceActive, hurl, List.countP_cons, hd]
      omega

lemma activeCount_markFirstDeviceActive (hostOf : String → Option String) (given_host : String)
    (devices : List StreamMagicDevice) (h : activeCount devices = 0) :
    activeCount (markFirstDeviceActive hostOf given_host devices).1 ≤ 1 :=
  countP_markFirstDeviceActive hostOf given_host devices h

lemma activeCount_markDeviceActivating (udn : String) (devices : List StreamMagicDevice) :
    activeCount (markDeviceActivating udn devices) = activeCount devices := by
  induction devices with
  | nil => rfl
  | cons d rest ih =>
    by_cases h : d.udn = udn <;>
      simp [markDeviceActivating, h, activeCount, List.countP_cons] <;>
      simp [activeCount] at ih <;> omega

lemma activeCount_set_device_is_active_from_url (hostOf : String → Option String) (st : SMState)
    (url : String) :
    activeCount (st.set_device_is_active_from_url hostOf url).devices ≤ 1 := by
  unfold SMState.set_device_is_active_from_url
  cases hurl : hostOf url with
  | some given_host =>
    simp only [hurl]
    exact activeCount_markFirstDeviceActive hostOf given_host _ (activeCount_set_all_false st)
  | none => simp [hurl, activeCount_set_all_false]

lemma devices_set_is_activating (st : SMState) (b : Bool) (now : Nat) :
    (st.set_is_activating b now).devices = st.devices := by
  unfold SMState.set_is_activating
  split_ifs <;> rfl

lemma devices_stop_websocket_client (st : SMState) :
    (st.stop_websocket_client).1.devices = st.devices := by
  unfold SMState.stop_websocket_client
  split_ifs <;> rfl

lemma devices_start_websocket_client (st : SMState) (host : String) :
    (st.start_websocket_client host).1.devices = st.devices := by
  simp [SMState.start_websocket_client, devices_stop_websocket_client]

lemma activeCount_activate_device (hostOf : String → Option String) (st : SMState)
    (udn : String) (now : Nat) (h : activeCount st.devices ≤ 1) :
    activeCount (st.activate_device hostOf udn now).1.devices ≤ 1 := by
  unfold SMState.activate_device
  simp only []
  split
  · rw [devices_set_is_activating, devices_set_is_activating]
    exact h
  · split
    · split
      · rw [devices_start_websocket_client]
        simp only [activeCount_markDeviceActivating]
        rw [devices_set_is_activating]
        simpa [activeCount_set_all_false] using Nat.le_succ 0
      · rw [devices_set_is_activating]
        simpa [activeCount_set_all_false] using Nat.le_succ 0
    · simpa [activeCount_set_all_false] using Nat.le_succ 0

set_option maxHeartbeats 1000000 in
lemma devices_process_streammagic_message (st : SMState) (parsed : StreamMagicParsed) :
    (st.process_streammagic_message parsed).1.devices = st.devices := by
  cases parsed with
  | malformed => rfl
  | msg path decoded =>
    unfold SMState.process_streammagic_message
    cases decoded with
    | none =>
      dsimp only
      split_ifs <;> rfl
    | some payload =>
      dsimp only
      simp only [apply_ite (fun q : SMState × List SMEffect => q.1.devices), ite_self]

lemma devices_send_test_connection_request (st : SMState) :
    (st.send_test_connection_request).1.devices = st.devices := by
  unfold SMState.send_test_connection_request
  dsimp only
  split_ifs <;> rfl

lemma devices_reset_websocket_related_state (st : SMState) (now : Nat) :
    (st.reset_websocket_related_state now).devices = st.devices := by
  unfold SMState.reset_websocket_related_state
  rw [devices_set_is_activating]

lemma activeCount_handle_ws_status (hostOf : String → Option String) (st : SMState)
    (status : WebSocketClientStatus) (now : Nat) (h : activeCount st.devices ≤ 1) :
    activeCount (st.handle_ws_status hostOf status now).1.devices ≤ 1 := by
  cases status with
  | connected url existing =>
    cases existing with
    | false =>
      have h1 := activeCount_set_device_is_active_from_url hostOf
        (if st.is_testing_connection then { st with is_testing_connection := false } else st) url
      simpa [SMState.handle_ws_status, devices_set_is_activating] using h1
    | true =>
      by_cases ht : st.is_testing_connection <;>
        simpa [SMState.handle_ws_status, devices_set_is_activating, ht] using h
  | disconnected reason cr =>
    unfold SMState.handle_ws_status
    by_cases ht : st.is_testing_connection
    · simp only [SMState.set_all_device_activation_false, ht, if_true]
      cases hl : st.last_active_device with
      | some last_active_device =>
        simp only [hl]
        apply activeCount_activate_device
        simp [activeCount_clear]
      | none =>
        simp only [hl]
        simp [activeCount_clear]
    · simp only [SMState.set_all_device_activation_false, ht, if_false]
      cases cr with
      | true =>
        cases hl : st.last_active_device with
        | some last_active_device =>
          simp only [hl]
          apply activeCount_activate_device
          simp [activeCount_clear]
        | none =>
          simp only [hl]
          simp [devices_set_is_activating, activeCount_clear]
      | false =>
        simp [devices_set_is_activating, activeCount_clear]
  | connecting u => simpa [SMState.handle_ws_status] using h
  | testingConnection => simpa [SMState.handle_ws_status] using h

lemma activeCount_add_device (hostOf : String → Option String) (st : SMState)
    (device : StreamMagicDevice) (hdev : device.is_active = false)
    (h : activeCount st.devices ≤ 1) :
    activeCount (st.add_device hostOf device).devices ≤ 1 := by
  unfold SMState.add_device
  dsimp only
  cases hs : st.ws_client_status with
  | connected url existing =>
    exact activeCount_set_device_is_active_from_url hostOf _ url
  | disconnected reason cr =>
    simp only [hs, activeCount, List.countP_append, List.countP_cons, List.countP_nil, hdev,
      Bool.false_eq_true, if_false]
    simp only [activeCount] at h
    omega
  | connecting u =>
    simp only [hs, activeCount, List.countP_append, List.countP_cons, List.countP_nil, hdev,
      Bool.false_eq_true, if_false]
    simp only [activeCount] at h
    omega
  | testingConnection =>
    simp only [hs, activeCount, List.countP_append, List.countP_cons, List.countP_nil, hdev,
      Bool.false_eq_true, if_false]
    simp only [activeCount] at h
    omega

lemma smStep_preserves_at_most_one_active (hostOf : String → Option String) (st : SMState)
    (event : SMEvent) (h : activeCount st.devices ≤ 1) :
    activeCount (smStep hostOf st event).1.devices ≤ 1 := by
  cases event with
  | activateUdn udn now => exact activeCount_activate_device hostOf st udn now h
  | connectToStreamer host =>
    simp only [smStep]
    rw [devices_start_websocket_client]
    exact h
  | deactivate =>
    simp only [smStep]
    rw [devices_stop_websocket_client, activeCount_set_all_false]
    omega
  | disconnectFromStreamer =>
    simp only [smStep]
    rw [devices_stop_websocket_client]
    exact h
  | discover activate =>
    simp [smStep, activeCount]
  | emitAppLog => exact h
  | handleClientError now =>
    simp only [smStep]
    by_cases ht : st.is_testing_connection <;> simp only [ht, if_true, if_false]
    · cases hl : ({ st with is_testing_connection := false } : SMState).last_active_device with
      | some last_device =>
        simp only [hl]
        exact activeCount_activate_device hostOf _ _ _ h
      | none => simpa only [hl] using h
    · simp only [Bool.false_eq_true, if_false]
      cases hl : st.last_active_device with
      | some last_device =>
        simp only [hl]
        exact activeCount_activate_device hostOf _ _ _ h
      | none => simpa only [hl] using h
  | onUIReady => exact h
  | processDiscoveredDevice fields =>
    exact activeCount_add_device hostOf st fields.toDevice rfl h
  | setIsDiscovering is_discovering => exact h
  | shutDown =>
    simp only [smStep]
    rw [devices_stop_websocket_client]
    exact h
  | stopWebSocketClientAction remove_from_persisted_state =>
    simp only [smStep]
    rw [devices_reset_websocket_related_state, devices_stop_websocket_client]
    exact h
  | testConnection now =>
    simp only [smStep]
    cases hs : st.ws_client_status with
    | connected url existing =>
      rw [devices_send_test_connection_request]
      exact h
    | disconnected reason cr =>
      cases hl : st.last_active_device with
      | some last_device => exact activeCount_activate_device hostOf _ _ _ h
      | none => exact h
    | connecting u =>
      cases hl : st.last_active_device with
      | some last_device => exact activeCount_activate_device hostOf _ _ _ h
      | none => exact h
    | testingConnection =>
      cases hl : st.last_active_device with
      | some last_device => exact activeCount_activate_device hostOf _ _ _ h
      | none => exact h
  | streamerAction => exact h
  | wsData parsed =>
    simp only [smStep]
    rw [devices_process_streammagic_message]
    exact h
  | wsStatus status now => exact activeCount_handle_ws_status hostOf st status now h

/-- C1: for every host-extraction function and every sequence of inbox events
handled by the StreamMagicManager run loop, at most one device in the device
list is flagged active at every point between events. -/
theorem at_most_one_device_active :
    ∀ (hostOf : String → Option String) (events : List SMEvent),
      activeCount (smRun hostOf events).devices ≤ 1 := by
  intro hostOf events
  have main : ∀ (evs : List SMEvent) (st : SMState), activeCount st.devices ≤ 1 →
      activeCount (evs.foldl (fun s e => (smStep hostOf s e).1) st).devices ≤ 1 := by
    intro evs
    induction evs with
    | nil => intro st hst; exact hst
    | cons e rest ih =>
      intro st hst
      exact ih _ (smStep_preserves_at_most_one_active hostOf st e hst)
  exact main events SMState.initial (by simp [SMState.initial, activeCount])

-- ------------------------------------------------------------------------------------------------
-- Activation backoff and timeout (C2)

/-- C2 counterexample: the sleep computed by activate_device before attempt 1
is 200 ms, not the 100 ms the claimed formula min(100 * 2 ^ (n - 1), 1500)
gives, because the source exponent is the attempt count itself. -/
theorem activation_backoff_attempt_one_is_200ms :
    activationDelayMs 1 = 200 ∧ activationDelayMs 1 ≠ 100 := by decide

/-- C2 (amended): attempt 0 sleeps zero and the sleep before attempt n with
n at least 1 is min(100 * 2 ^ n, 1500) ms, giving successive sleeps
0, 200, 400, 800, 1500, 1500, ...; and once the elapsed time since the
recorded activation start exceeds 15000 ms, activate_device aborts with
is_activating = false and performs no side effects. -/
theorem activation_backoff_and_timeout :
    activationDelayMs 0 = 0 ∧
    (∀ n : Nat, activationDelayMs (n + 1) = min 1500 (100 * 2 ^ (n + 1))) ∧
    (List.range 7).map activationDelayMs = [0, 200, 400, 800, 1500, 1500, 1500] ∧
    (∀ (hostOf : String → Option String) (st : SMState) (udn : String) (start now : Nat),
      st.is_activating = true → st.activation_start = some start → 15000 < now - start →
      (st.activate_device hostOf udn now).1.is_activating = false ∧
      (st.activate_device hostOf udn now).2 = []) := by
  refine ⟨rfl, fun n => rfl, by decide, ?_⟩
  intro hostOf st udn start now hact hstart hel
  have h1 : st.set_is_activating true now = st := by
    unfold SMState.set_is_activating
    simp [hact]
  unfold SMState.activate_device
  dsimp only
  rw [h1, hstart]
  simp only [decide_eq_true hel, if_true]
  simp [SMState.set_is_activating]

/-- Witness for the timeout clause of the amended C2 theorem at a concrete
state and clock reading. -/
theorem activation_timeout_witness :
    ((SMState.initial.set_is_activating true 0).activate_device (fun _ => none) "udn-w" 20000).1.is_activating
        = false ∧
    ((SMState.initial.set_is_activating true 0).activate_device (fun _ => none) "udn-w" 20000).2
        = [] :=
  activation_backoff_and_timeout.2.2.2 (fun _ => none)
    (SMState.initial.set_is_activating true 0) "udn-w" 0 20000 rfl rfl (by decide)

-- ------------------------------------------------------------------------------------------------
-- Discovery-scan deduplication and unconditional append (C9)

/-- C9 counterexample: add_device performs no UDN check, so handling two
ProcessDiscoveredDevice events that carry the same UDN leaves two device-list
entries with that UDN. -/
theorem duplicate_udn_appended_twice :
    (smRun (fun _ => none)
        [SMEvent.processDiscoveredDevice
          { friendly_name := "CXNv2", model := "CXNv2", model_number := none,
            serial_number := none, url := "http://10.0.0.2/desc.xml", udn := "uuid-1" },
         SMEvent.processDiscoveredDevice
          { friendly_name := "CXNv2", model := "CXNv2", model_number := none,
            serial_number := none, url := "http://10.0.0.2/desc.xml", udn := "uuid-1" }]).devices.map
      (fun d => d.udn) = ["uuid-1", "uuid-1"] := rfl

/-- One UPnP MediaRenderer search result, as consumed by discover_streamers. -/
structure UpnpDevice where
  friendly_name : String
  model_name : String
  model_number : Option String
  serial_number : Option String
  url : String
  udn : String
  manufacturer : String
deriving Repr, DecidableEq

/-- Mirror of the discover_streamers result loop (discovery.rs lines 52-116):
skip UDNs already seen during this scan, then keep only Cambridge Audio
devices, each sent to the manager inbox as a ProcessDiscoveredDevice action. -/
def discover_streamers_results (seen_udns : List String) :
    List UpnpDevice → List DiscoveredStreamerFields
  | [] => []
  | device :: rest =>
    if device.udn ∈ seen_udns then discover_streamers_results seen_udns rest
    else
      if device.manufacturer = "Cambridge Audio" then
        { friendly_name := device.friendly_name, model := device.model_name,
          model_number := device.model_number, serial_number := device.serial_number,
          url := device.url, udn := device.udn } ::
          discover_streamers_results (device.udn :: seen_udns) rest
      else discover_streamers_results (device.udn :: seen_udns) rest

lemma discover_streamers_results_not_seen (devices : List UpnpDevice) :
    ∀ (seen : List String), ∀ f ∈ discover_streamers_results seen devices, f.udn ∉ seen := by
  induction devices with
  | nil => intro seen f hf; simp [discover_streamers_results] at hf
  | cons d rest ih =>
    intro seen f hf
    unfold discover_streamers_results at hf
    split_ifs at hf with hmem hman
    · exact ih seen f hf
    · rcases List.mem_cons.mp hf with hf1 | hf2
      · rw [hf1]; exact hmem
      · have hnot := ih (d.udn :: seen) f hf2
        intro hcon
        exact hnot (List.mem_cons_of_mem _ hcon)
    · have hnot := ih (d.udn :: seen) f hf
      intro hcon
      exact hnot (List.mem_cons_of_mem _ hcon)

lemma discover_streamers_results_nodup (devices : List UpnpDevice) :
    ∀ seen : List String,
      ((discover_streamers_results seen devices).map (fun f => f.udn)).Nodup := by
  induction devices with
  | nil => intro seen; simp [discover_streamers_results]
  | cons d rest ih =>
    intro seen
    unfold discover_streamers_results
    split_ifs with hmem hman
    · exact ih seen
    · simp only [List.map_cons, List.nodup_cons]
      refine ⟨?_, ih (d.udn :: seen)⟩
      intro hcon
      rcases List.mem_map.mp hcon with ⟨f, hf, hfu⟩
      have hnot := discover_streamers_results_not_seen rest (d.udn :: seen) f hf
      exact hnot (by rw [hfu]; exact List.mem_cons_self _ _)
    · exact ih (d.udn :: seen)

lemma length_markFirstDeviceActive (hostOf : String → Option String) (given_host : String)
    (devices : List StreamMagicDevice) :
    (markFirstDeviceActive hostOf given_host devices).1.length = devices.length := by
  induction devices with
  | nil => rfl
  | cons d rest ih =>
    cases hurl : hostOf d.url with
    | some device_host =>
      by_cases heq : device_host = given_host <;>
        simp [markFirstDeviceActive, hurl, heq, ih]
    | none => simp [markFirstDeviceActive, hurl, ih]

lemma length_set_device_is_active_from_url (hostOf : String → Option String) (st : SMState)
    (url : String) :
    (st.set_device_is_active_from_url hostOf url).devices.length = st.devices.length := by
  unfold SMState.set_device_is_active_from_url
  cases hurl : hostOf url with
  | some given_host =>
    simp [hurl, length_markFirstDeviceActive, SMState.set_all_device_activation_false]
  | none => simp [hurl, SMState.set_all_device_activation_false]

/-- C9 (amended): the manager appends every discovered device delivered by
ProcessDiscoveredDevice unconditionally (add_device has no UDN check, so
repeats do produce duplicates), while deduplication by UDN happens inside a
single discovery scan, whose emitted devices carry pairwise-distinct UDNs. -/
theorem discovered_device_append_and_scan_dedup :
    (∀ (hostOf : String → Option String) (st : SMState) (fields : DiscoveredStreamerFields),
      (smStep hostOf st (.processDiscoveredDevice fields)).1.devices.length =
        st.devices.length + 1) ∧
    (∀ devices : List UpnpDevice,
      ((discover_streamers_results [] devices).map (fun f => f.udn)).Nodup) := by
  refine ⟨?_, fun devices => discover_streamers_results_nodup devices []⟩
  intro hostOf st fields
  simp only [smStep]
  unfold SMState.add_device
  dsimp only
  cases hs : st.ws_client_status with
  | connected url existing =>
    rw [length_set_device_is_active_from_url]
    simp
  | disconnected reason cr => simp
  | connecting u => simp
  | testingConnection => simp

-- ------------------------------------------------------------------------------------------------
-- Connection-up side effects (C5)

/-- C5: on a Connected status with existing = true the manager performs none
of the connection-up side effects (no persisted-host write, no subscription
or queue-list messages, no device flag changes), while on a Connected with
existing = false whose URL yields a host it persists that host and sends the
nine subscription messages followed by the queue-list request. -/
theorem connected_existing_has_no_side_effects :
    ∀ (hostOf : String → Option String) (st : SMState) (url : String) (now : Nat),
      (smStep hostOf st (.wsStatus (.connected url true) now)).2 = [] ∧
      (smStep hostOf st (.wsStatus (.connected url true) now)).1.devices = st.devices ∧
      (smStep hostOf st (.wsStatus (.connected url false) now)).1.devices =
        (st.set_device_is_active_from_url hostOf url).devices ∧
      (∀ host : String, hostOf url = some host →
        (smStep hostOf st (.wsStatus (.connected url false) now)).2 =
          SMEffect.persistHost host ::
            (register_for_streammagic_updates_msgs.map SMEffect.wsSend ++
              [SMEffect.wsSend QueueList.request_state_msg])) := by
  intro hostOf st url now
  refine ⟨?_, ?_, ?_, ?_⟩
  · by_cases ht : st.is_testing_connection <;>
      simp [smStep, SMState.handle_ws_status, ht]
  · by_cases ht : st.is_testing_connection <;>
      simp [smStep, SMState.handle_ws_status, ht, devices_set_is_activating]
  · by_cases ht : st.is_testing_connection <;>
      cases hurl : hostOf url <;>
        simp [smStep, SMState.handle_ws_status, SMState.set_device_is_active_from_url,
          SMState.set_all_device_activation_false, ht, hurl, devices_set_is_activating]
  · intro host hhost
    by_cases ht : st.is_testing_connection <;>
      simp [smStep, SMState.handle_ws_status, ht, hhost]

/-- Witness for the connection-up clause of the C5 theorem at a concrete
state, URL and host function. -/
theorem connected_existing_has_no_side_effects_witness :
    (smStep (fun _ => some "10.0.0.2") SMState.initial
        (.wsStatus (.connected "ws://10.0.0.2:80/smoip" false) 0)).2 =
      SMEffect.persistHost "10.0.0.2" ::
        (register_for_streammagic_updates_msgs.map SMEffect.wsSend ++
          [SMEffect.wsSend QueueList.request_state_msg]) :=
  (connected_existing_has_no_side_effects (fun _ => some "10.0.0.2") SMState.initial
    "ws://10.0.0.2:80/smoip" 0).2.2.2 "10.0.0.2" rfl

-- ------------------------------------------------------------------------------------------------
-- Payload-cache preservation (C8)

lemma cache_set_is_activating (st : SMState) (b : Bool) (now : Nat) :
    (st.set_is_activating b now).cache = st.cache := by
  unfold SMState.set_is_activating
  split_ifs <;> rfl

lemma cache_stop_websocket_client (st : SMState) :
    (st.stop_websocket_client).1.cache = st.cache := by
  unfold SMState.stop_websocket_client
  split_ifs <;> rfl

lemma cache_start_websocket_client (st : SMState) (host : String) :
    (st.start_websocket_client host).1.cache = st.cache := by
  simp [SMState.start_websocket_client, cache_stop_websocket_client]

lemma cache_activate_device (hostOf : String → Option String) (st : SMState)
    (udn : String) (now : Nat) :
    (st.activate_device hostOf udn now).1.cache = st.cache := by
  unfold SMState.activate_device
  dsimp only
  split
  · rw [cache_set_is_activating, cache_set_is_activating]
  · split
    · split
      · rw [cache_start_websocket_client]
        exact cache_set_is_activating st true now
      · rw [cache_set_is_activating]
        exact cache_set_is_activating st true now
    · exact cache_set_is_activating st true now

/-- C8: a failed payload decode never overwrites a cache slot, a failed
envelope parse changes nothing, and a Disconnected status never resets any
cache slot. -/
theorem payload_cache_never_reset :
    ∀ (hostOf : String → Option String) (st : SMState) (path : String)
      (reason : Option String) (cr : Bool) (now : Nat),
      (smStep hostOf st (.wsData (.msg path none))).1.cache = st.cache ∧
      (smStep hostOf st (.wsData .malformed)).1.cache = st.cache ∧
      (smStep hostOf st (.wsStatus (.disconnected reason cr) now)).1.cache = st.cache := by
  intro hostOf st path reason cr now
  refine ⟨?_, rfl, ?_⟩
  · simp only [smStep]
    unfold SMState.process_streammagic_message
    dsimp only
    simp only [apply_ite (fun q : SMState × List SMEffect => q.1.cache), ite_self]
  · simp only [smStep]
    unfold SMState.handle_ws_status
    by_cases ht : st.is_testing_connection
    · cases hl : st.last_active_device with
      | some last_active_device =>
        simp [SMState.set_all_device_activation_false, ht, hl, cache_activate_device]
      | none => simp [SMState.set_all_device_activation_false, ht, hl]
    · cases cr with
      | true =>
        cases hl : st.last_active_device with
        | some last_active_device =>
          simp [SMState.set_all_device_activation_false, ht, hl, cache_activate_device]
        | none => simp [SMState.set_all_device_activation_false, ht, hl, cache_set_is_activating]
      | false => simp [SMState.set_all_device_activation_false, ht, cache_set_is_activating]

-- ================================================================================================
-- AmplifierManager (amplifier_manager.rs, amplifier_manager/discovery.rs)
-- ================================================================================================

/-- Mirror of struct AmplifierDevice (amplifier_manager/discovery.rs lines 25-33). -/
structure AmplifierDevice where
  friendly_name : String
  manufacturer : String
  model : String
  model_number : Option String
  serial_number : Option String
  url : String
  udn : String
deriving Repr, DecidableEq

/-- Mirror of enum AmplifierHandlerConnectionStatus (amplifier_handler.rs). -/
inductive AmplifierHandlerConnectionStatus where
  | connected
  | disconnected
deriving Repr, DecidableEq

/-- Externally visible effects of one AmplifierManager run-loop iteration.
Logging and UI emissions are out of scope and not recorded. -/
inductive AmpEffect where
  | stopHandler
  | spawnHandler (device : AmplifierDevice)
  | sleepMs (ms : Nat)
  | spawnDiscovery
  | sendHandlerTestConnection
  | forwardAmplifierAction
deriving Repr, DecidableEq

/-- State of the AmplifierManager actor (amplifier_manager.rs lines 95-117)
restricted to the fields the run loop mutates; channel and join handles are
collapsed into has_handler; max_reconnect_attempts = 3 and
reconnect_delay = 1000 are constants and appear inline. -/
structure AmpMgrState where
  amp_state : AmplifierState
  handler_start_count : Nat
  is_discovering : Bool
  is_handling_amplifier : Bool
  is_shutting_down : Bool
  is_testing_connection : Bool
  managed_device : Option AmplifierDevice
  reconnect_attempts : Nat
  has_handler : Bool
deriving Repr, DecidableEq

/-- Mirror of AmplifierManager::new (lines 126-145). -/
def AmpMgrState.initial : AmpMgrState :=
  { amp_state := AmplifierState.default, handler_start_count := 0, is_discovering := false,
    is_handling_amplifier := false, is_shutting_down := false, is_testing_connection := false,
    managed_device := none, reconnect_attempts := 0, has_handler := false }

/-- Mirror of stop_amplifier_handler (lines 271-317): only acts when a
handler task exists; shutting down and joining it is recorded as one effect. -/
def AmpMgrState.stop_amplifier_handler (st : AmpMgrState) : AmpMgrState × List AmpEffect :=
  if st.has_handler then ({ st with has_handler := false }, [AmpEffect.stopHandler])
  else (st, [])

/-- Mirror of handle_amplifier (lines 321-376): stop any existing handler,
reset the amplifier state, reject non-Hegel manufacturers, then record the
managed device and spawn a fresh handler. -/
def AmpMgrState.handle_amplifier (st : AmpMgrState) (device : AmplifierDevice) :
    AmpMgrState × List AmpEffect :=
  let stopped := st.stop_amplifier_handler
  let st1 := { stopped.1 with managed_device := none, amp_state := AmplifierState.default }
  if device.manufacturer ≠ "Hegel" then (st1, stopped.2)
  else
    let st2 := { st1 with managed_device := some device, has_handler := true,
                          handler_start_count := st1.handler_start_count + 1 }
    (st2, stopped.2 ++ [AmpEffect.spawnHandler device])

/-- One AmplifierManager inbox event: the AmplifierManagerAction variants, a
forwarded AmplifierAction, and the two handler outbox message kinds. -/
inductive AmpEvent where
  | disconnectFromAmplifier
  | discover
  | onUIReady
  | processDiscoveredDevice (device : AmplifierDevice)
  | setIsDiscovering (is_discovering : Bool)
  | shutDown
  | testConnection
  | amplifierAction
  | handlerState (amp_state : AmplifierState)
  | handlerStatus (status : AmplifierHandlerConnectionStatus)
deriving Repr, DecidableEq

/-- Mirror of one iteration of the AmplifierManager run loop select (lines
395-531), dispatching a single inbox event against the manager state. -/
def ampStep (st : AmpMgrState) (event : AmpEvent) : AmpMgrState × List AmpEffect :=
  match event with
  | .disconnectFromAmplifier => st.stop_amplifier_handler
  | .discover => ({ st with is_discovering := true }, [AmpEffect.spawnDiscovery])
  | .onUIReady => (st, [])
  | .processDiscoveredDevice device =>
    let st1 := { st with reconnect_attempts := 0 }
    st1.handle_amplifier device
  | .setIsDiscovering is_discovering => ({ st with is_discovering := is_discovering }, [])
  | .shutDown =>
    let st1 := { st with is_shutting_down := true }
    st1.stop_amplifier_handler
  | .testConnection =>
    if st.is_handling_amplifier then
      ({ st with is_testing_connection := true }, [AmpEffect.sendHandlerTestConnection])
    else (st, [])
  | .amplifierAction =>
    if st.is_handling_amplifier then (st, [AmpEffect.forwardAmplifierAction]) else (st, [])
  | .handlerState amp_state => ({ st with amp_state := amp_state }, [])
  | .handlerStatus status =>
    match status with
    | .connected =>
      ({ st with is_handling_amplifier := true, reconnect_attempts := 0 }, [])
    | .disconnected =>
      let st1 := { st with is_handling_amplifier := false }
      let stopped := st1.stop_amplifier_handler
      let st2 := stopped.1
      if ¬ st2.is_shutting_down then
        match st2.managed_device with
        | some existing_device =>
          let st3 := { st2 with reconnect_attempts := st2.reconnect_attempts + 1 }
          if st3.reconnect_attempts ≤ 3 then
            let handled := st3.handle_amplifier existing_device
            (handled.1, stopped.2 ++ [AmpEffect.sleepMs 1000] ++ handled.2)
          else
            ({ st3 with reconnect_attempts := 0 }, stopped.2)
        | none => (st2, stopped.2)
      else (st2, stopped.2)

/-- Fold a sequence of inbox events, collecting all emitted effects. -/
def ampRunCollect (st : AmpMgrState) : List AmpEvent → AmpMgrState × List AmpEffect
  | [] => (st, [])
  | event :: rest =>
    let step := ampStep st event
    let next := ampRunCollect step.1 rest
    (next.1, step.2 ++ next.2)

/-- An effect is a handler spawn (one connection attempt to the amplifier). -/
def isSpawnHandler : AmpEffect → Bool
  | .spawnHandler _ => true
  | _ => false

/-- C4: with a managed Hegel device and no shutdown in progress, four
consecutive Disconnected statuses with no intervening Connected produce
exactly 3 handler respawns (reconnect attempts) before the manager gives up
and resets the counter to 0; and reconnect_attempts is reset to 0 by every
Connected status and by every accepted ProcessDiscoveredDevice. -/
theorem amplifier_reconnect_bounded_and_counter_resets :
    (∀ (n m u ud : String) (mn sn : Option String),
      (ampRunCollect
          { AmpMgrState.initial with
              managed_device := some { friendly_name := n, manufacturer := "Hegel", model := m,
                                       model_number := mn, serial_number := sn, url := u,
                                       udn := ud },
              is_handling_amplifier := true, has_handler := true }
          [.handlerStatus .disconnected, .handlerStatus .disconnected,
           .handlerStatus .disconnected, .handlerStatus .disconnected]).2.countP isSpawnHandler
          = 3 ∧
      (ampRunCollect
          { AmpMgrState.initial with
              managed_device := some { friendly_name := n, manufacturer := "Hegel", model := m,
                                       model_number := mn, serial_number := sn, url := u,
                                       udn := ud },
              is_handling_amplifier := true, has_handler := true }
          [.handlerStatus .disconnected, .handlerStatus .disconnected,
           .handlerStatus .disconnected, .handlerStatus .disconnected]).1.reconnect_attempts
          = 0) ∧
    (∀ st : AmpMgrState, (ampStep st (.handlerStatus .connected)).1.reconnect_attempts = 0) ∧
    (∀ (st : AmpMgrState) (device : AmplifierDevice),
      (ampStep st (.processDiscoveredDevice device)).1.reconnect_attempts = 0) := by
  refine ⟨?_, fun st => rfl, ?_⟩
  · intro n m u ud mn sn
    exact ⟨rfl, rfl⟩
  · intro st device
    simp only [ampStep]
    unfold AmpMgrState.handle_amplifier AmpMgrState.stop_amplifier_handler
    dsimp only
    split_ifs <;> rfl

-- ================================================================================================
-- WebSocketClient::connect (websocket_client.rs lines 344-419)
-- ================================================================================================

/-- The PunyTunesError variants WebSocketClient::connect can return
(errors.rs; only the subset reachable from connect is modelled). -/
inductive PunyTunesError where
  | webSocket (message : String)
  | webSocketTimeout
deriving Repr, DecidableEq

/-- Outcome of the awaited, timeout-wrapped connect_async call. The URL parse
and client-request construction are separate earlier stages; this covers the
final attempt: success, an error from the library, or the 2000 ms timeout. -/
inductive ConnectAttemptOutcome where
  | success
  | connectError (message : String)
  | timedOut
deriving Repr, DecidableEq

/-- Mirror of the connection_timeout_ms field of WebSocketClient::new. -/
def connection_timeout_ms : Nat := 2000

/-- Mirror of WebSocketClient::connect (lines 344-419): the first component
lists the statuses emitted through set_status, in order; the second is the
returned result. Connecting is always emitted before the attempt; a URL
parse failure or request construction failure emits Disconnected with
consider_reconnecting = false and returns a WebSocket error; success emits
Connected with existing = false; a connection error and the connect timeout
return errors without emitting any further status. -/
def wsClientConnect (url : String) (url_parse_ok : Bool) (request_build_ok : Bool)
    (attempt : ConnectAttemptOutcome) :
    List WebSocketClientStatus × Except PunyTunesError Unit :=
  let connecting := WebSocketClientStatus.connecting url
  if ¬ url_parse_ok then
    ([connecting, .disconnected (some "URL parsing error") false],
      Except.error (PunyTunesError.webSocket "URL parsing error"))
  else if ¬ request_build_ok then
    ([connecting, .disconnected (some "Could not create WebSocket connection request") false],
      Except.error (PunyTunesError.webSocket "Could not create WebSocket connection request"))
  else
    match attempt with
    | .success => ([connecting, .connected url false], Except.ok ())
    | .connectError message =>
      ([connecting],
        Except.error (PunyTunesError.webSocket ("WebSocketClient connection error: " ++ message)))
    | .timedOut => ([connecting], Except.error PunyTunesError.webSocketTimeout)

/-- A status is a Disconnected emission. -/
def isDisconnectedStatus : WebSocketClientStatus → Bool
  | .disconnected _ _ => true
  | _ => false

/-- C6 counterexample: on the connect-timeout failure path the client emits
no Disconnected status at all; only Connecting precedes the error return, so
the claim that every failure path emits Disconnected is false. -/
theorem connect_timeout_emits_no_disconnected :
    (wsClientConnect "ws://10.0.0.2:80/smoip" true true .timedOut).1 =
      [WebSocketClientStatus.connecting "ws://10.0.0.2:80/smoip"] ∧
    (wsClientConnect "ws://10.0.0.2:80/smoip" true true .timedOut).1.countP isDisconnectedStatus
      = 0 ∧
    (wsClientConnect "ws://10.0.0.2:80/smoip" true true .timedOut).2 =
      Except.error PunyTunesError.webSocketTimeout :=
  ⟨rfl, rfl, rfl⟩

/-- C6 (amended): connect emits Connecting before the attempt, then exactly
one of Connected with existing = false on success, or Disconnected with
consider_reconnecting = false on URL parse failure and on request
construction failure; on a connection error and on the 2 s connect timeout
it returns an error having emitted no status beyond Connecting. -/
theorem connect_status_emissions :
    ∀ (url message : String) (request_build_ok : Bool) (attempt : ConnectAttemptOutcome),
      wsClientConnect url false request_build_ok attempt =
        ([.connecting url, .disconnected (some "URL parsing error") false],
          Except.error (PunyTunesError.webSocket "URL parsing error")) ∧
      wsClientConnect url true false attempt =
        ([.connecting url,
            .disconnected (some "Could not create WebSocket connection request") false],
          Except.error (PunyTunesError.webSocket "Could not create WebSocket connection request")) ∧
      wsClientConnect url true true .success =
        ([.connecting url, .connected url false], Except.ok ()) ∧
      wsClientConnect url true true (.connectError message) =
        ([.connecting url],
          Except.error (PunyTunesError.webSocket ("WebSocketClient connection error: " ++ message))) ∧
      wsClientConnect url true true .timedOut =
        ([.connecting url], Except.error PunyTunesError.webSocketTimeout) := by
  intro url message request_build_ok attempt
  exact ⟨rfl, rfl, rfl, rfl, rfl⟩

end PunyTunes
